import Mathlib

/-!
Shallow embedding of the episode-navigation playback controller of the
`ani-l` repository, covering:

* `src/player/traits.rs` — the data model (`PlayOptions`, `EpisodeAction`);
* `src/provider/allanime.rs` — `get_episode_sources` (episode source lookup
  with its "not found" bail) and the shape of source candidates;
* `src/main.rs` — `resolve_stream_for_episode` (priority-ordered candidate
  selection and extraction) and the navigator closure built around the
  shared episode cursor;
* `src/player/mpv.rs` — `play`: process spawn, IPC connection retry,
  keybind/observe setup, and the event loop that dispatches inbound IPC
  lines (position updates and next/previous-episode signals).

Network and process effects are represented by oracle functions passed as
parameters; the control flow around them is translated statement by
statement from the Rust source.  Playback percentages (`f64` values that
are only compared, never combined arithmetically) are modelled as `ℚ`.
The episode cursor is an `i32` in the source; it is modelled as an integer
together with two's-complement wrap-around on increment, matching release
build semantics.
-/

/-- `PlayOptions` from `src/player/traits.rs`. -/
structure PlayOptions where
  url : String
  title : Option String
  start_time : Option String
  headers : Option (List (String × String))
  subtitles : Option (List String)
deriving DecidableEq, Repr

/-- `EpisodeAction` from `src/player/traits.rs`. -/
inductive EpisodeAction where
  | Next
  | Previous
deriving DecidableEq, Repr

/-- `SourceUrl` from `src/provider/models.rs` as consumed by
`resolve_stream_for_episode`: a label used for priority matching and an
opaque reference handed to extraction. -/
structure SourceUrl where
  source_name : String
  source_url : String
deriving DecidableEq, Repr

/-- Outcome of the provider's episode query HTTP round-trip, before
`get_episode_sources` post-processes it: a transport failure, or a JSON
body whose `episode` field is either `null` or carries the source list. -/
inductive ApiResult where
  | transportErr (msg : String)
  | ok (episode : Option (List SourceUrl))
deriving DecidableEq, Repr

instance {ε α : Type} [DecidableEq ε] [DecidableEq α] : DecidableEq (Except ε α)
  | Except.ok a, Except.ok b =>
      if h : a = b then isTrue (by rw [h]) else isFalse (by intro hh; cases hh; exact h rfl)
  | Except.ok _, Except.error _ => isFalse (by intro h; cases h)
  | Except.error _, Except.ok _ => isFalse (by intro h; cases h)
  | Except.error e, Except.error f =>
      if h : e = f then isTrue (by rw [h]) else isFalse (by intro hh; cases hh; exact h rfl)

/-- `AllAnimeProvider::get_episode_sources` (`src/provider/allanime.rs`,
lines 79–126): a transport error propagates; a response with
`episode = null` is turned into the error
`"Episode {ep} not found for show ID {id}"` via `anyhow::bail!`; otherwise
the source list is returned. -/
def get_episode_sources (api : String → String → ApiResult)
    (show_id episode_num : String) : Except String (List SourceUrl) :=
  match api show_id episode_num with
  | ApiResult.transportErr msg => Except.error msg
  | ApiResult.ok (some srcs) => Except.ok srcs
  | ApiResult.ok none =>
      Except.error ("Episode " ++ episode_num ++ " not found for show ID " ++ show_id)

/-- The static priority list of `resolve_stream_for_episode`
(`src/main.rs` line 434). -/
def priorities : List String :=
  ["S-mp4", "Luf-mp4", "Luf-Mp4", "Sak", "Default", "Yt-mp4"]

/-- The title attached to a successfully extracted stream
(`src/main.rs` line 440). -/
def episodeTitle (show_name episode : String) : String :=
  show_name ++ " - Episode " ++ episode

/-- The `for source_name in priorities` loop of `resolve_stream_for_episode`
(`src/main.rs` lines 436–446): for each priority label in order, look up the
first candidate bearing that label; if extraction of its reference succeeds,
return the options re-titled with show name and episode; on extraction
failure (or no candidate with that label) continue with the next label. -/
def tryPriorities (ps : List String) (sources : List SourceUrl)
    (extract : String → Except String PlayOptions)
    (show_name episode : String) : Option PlayOptions :=
  match ps with
  | [] => none
  | p :: rest =>
    match sources.find? (fun s => s.source_name == p) with
    | some src =>
      match extract src.source_url with
      | Except.ok opts => some { opts with title := some (episodeTitle show_name episode) }
      | Except.error _ => tryPriorities rest sources extract show_name episode
    | none => tryPriorities rest sources extract show_name episode

/-- `resolve_stream_for_episode` (`src/main.rs` lines 427–448): query the
provider for the episode's candidate list (`?` propagates its error), then
run the priority loop; if the loop finds nothing, return `Ok(None)`. -/
def resolve_stream_for_episode (api : String → String → ApiResult)
    (extract : String → Except String PlayOptions)
    (show_id show_name episode : String) : Except String (Option PlayOptions) :=
  match get_episode_sources api show_id episode with
  | Except.error e => Except.error e
  | Except.ok sources =>
      Except.ok (tryPriorities priorities sources extract show_name episode)

/-- Two's-complement wrap-around of a mathematical integer into the `i32`
range, the release-build semantics of `i32` addition overflow. -/
def wrap32 (n : ℤ) : ℤ :=
  (n + 2 ^ 31) % 2 ^ 32 - 2 ^ 31

/-- One invocation of the navigator closure of `start_stream_task`
(`src/main.rs` lines 505–533), with the shared `Mutex<i32>` episode cursor
made explicit: `Next` increments the cursor (with `i32` wrap-around) and
resolves the new index; `Previous` decrements and resolves only when the
cursor exceeds 1, and otherwise returns `Ok(None)` with the cursor
untouched.  `resolve` stands for
`resolve_stream_for_episode(&p, &s_id, &s_name, ·)`. -/
def navStep (resolve : String → Except String (Option PlayOptions))
    (num : ℤ) : EpisodeAction → ℤ × Except String (Option PlayOptions)
  | EpisodeAction.Next =>
      let n := wrap32 (num + 1)
      (n, resolve (toString n))
  | EpisodeAction.Previous =>
      if 1 < num then
        let n := num - 1
        (n, resolve (toString n))
      else
        (num, Except.ok none)

/-- The navigator closure with the concrete resolver plugged in
(`src/main.rs` lines 505–533). -/
def navigator (api : String → String → ApiResult)
    (extract : String → Except String PlayOptions)
    (s_id s_name : String) (num : ℤ) (action : EpisodeAction) :
    ℤ × Except String (Option PlayOptions) :=
  navStep (fun ep => resolve_stream_for_episode api extract s_id s_name ep) num action

/-- Cursor value after a sequence of navigator invocations. -/
def navRun (resolve : String → Except String (Option PlayOptions))
    (num : ℤ) : List EpisodeAction → ℤ
  | [] => num
  | a :: rest => navRun resolve (navStep resolve num a).1 rest

/-- Number of `Next` actions in a sequence. -/
def countNext : List EpisodeAction → ℤ
  | [] => 0
  | EpisodeAction.Next :: rest => countNext rest + 1
  | EpisodeAction.Previous :: rest => countNext rest

/-- JSON values as seen through the `serde_json::Value` accessors that
`MpvPlayer::play` uses (`get`, `as_str`, `as_array`, `as_f64`).  JSON
numbers are decimal, so a rational payload is exact. -/
inductive JVal where
  | null
  | bool (b : Bool)
  | num (q : ℚ)
  | str (s : String)
  | arr (xs : List JVal)
  | obj (fields : List (String × JVal))

/-- `Value::get(key)` on an object. -/
def JVal.get (v : JVal) (key : String) : Option JVal :=
  match v with
  | JVal.obj fields => (fields.find? (fun kv => kv.1 == key)).map (fun kv => kv.2)
  | _ => none

/-- `Value::as_str`. -/
def JVal.asStr : JVal → Option String
  | JVal.str s => some s
  | _ => none

/-- `Value::as_array`. -/
def JVal.asArr : JVal → Option (List JVal)
  | JVal.arr xs => some xs
  | _ => none

/-- `Value::as_f64` (any JSON number converts). -/
def JVal.asF64 : JVal → Option ℚ
  | JVal.num q => some q
  | _ => none

/-- An outbound IPC command written by `play` (`src/player/mpv.rs`):
each constructor records one `{"command": [...]}` line. -/
inductive Cmd where
  | keybind (key command : String)
  | observeProperty (id : ℕ) (name : String)
  | showText (txt : String) (duration : Option String)
  | loadfile (url : String)
  | setTitle (t : String)
deriving DecidableEq, Repr

/-- The mutable state of the event loop: `max_percentage` and the state
captured by the navigator closure (the shared episode cursor in the real
program; kept abstract as `σ`). -/
structure LoopState (σ : Type) where
  maxPercentage : ℚ
  navState : σ
deriving DecidableEq, Repr

/-- A navigator as the event loop sees it: one invocation maps the closure's
captured state and an action to the new state and the result
(`src/player/traits.rs` `EpisodeNavigator`, with the captured mutable
cursor made explicit). -/
def NavFun (σ : Type) : Type :=
  σ → EpisodeAction → σ × Except String (Option PlayOptions)

/-- The label string of `src/player/mpv.rs` lines 120–123. -/
def actionLabel : EpisodeAction → String
  | EpisodeAction.Next => "Next"
  | EpisodeAction.Previous => "Previous"

/-- `label.to_lowercase()` as used in the not-found overlay
(`src/player/mpv.rs` line 147), applied to the two concrete labels. -/
def actionLabelLower : EpisodeAction → String
  | EpisodeAction.Next => "next"
  | EpisodeAction.Previous => "previous"

/-- The `script-message` argument strings matched at
`src/player/mpv.rs` lines 113–117. -/
def signalName : EpisodeAction → String
  | EpisodeAction.Next => "next-episode"
  | EpisodeAction.Previous => "previous-episode"

/-- Handling of one successfully read IPC line by the event loop of
`MpvPlayer::play` (`src/player/mpv.rs` lines 106–165).  The input is the
result of `serde_json::from_str` (`none` for a parse failure).  Returns the
new loop state and the commands written to the channel while handling the
line.  Mirrors the source: a missing/non-string `event` field is skipped; a
`client-message` event needs a non-empty `args` array whose first element is
one of the two signal strings, and a supplied navigator, before anything
happens; the navigator outcome selects between load-plus-optional-title
(resetting `max_percentage`), a not-found overlay, and an error overlay; a
`property-change` event updates `max_percentage` only for a numeric
`percent-pos` payload strictly above the current value. -/
def handleMsg {σ : Type} (nav : Option (NavFun σ)) (st : LoopState σ)
    (line : Option JVal) : LoopState σ × List Cmd :=
  match line with
  | none => (st, [])
  | some val =>
    match (val.get "event").bind JVal.asStr with
    | none => (st, [])
    | some event =>
      if event == "client-message" then
        match (val.get "args").bind JVal.asArr with
        | some (arg0 :: _) =>
          let action : Option EpisodeAction :=
            match arg0.asStr with
            | some "next-episode" => some EpisodeAction.Next
            | some "previous-episode" => some EpisodeAction.Previous
            | _ => none
          match action, nav with
          | some act, some navf =>
            let label := actionLabel act
            let fetching := Cmd.showText ("Fetching " ++ label ++ " Episode...") (some "5000")
            match navf st.navState act with
            | (ns, Except.ok (some new_opts)) =>
              let tCmds :=
                match new_opts.title with
                | some t => [Cmd.setTitle t]
                | none => []
              (⟨0, ns⟩, fetching :: Cmd.loadfile new_opts.url :: tCmds)
            | (ns, Except.ok none) =>
              (⟨st.maxPercentage, ns⟩,
                [fetching, Cmd.showText ("No " ++ actionLabelLower act ++ " episode found") none])
            | (ns, Except.error e) =>
              (⟨st.maxPercentage, ns⟩,
                [fetching, Cmd.showText ("Error: " ++ e) none])
          | _, _ => (st, [])
        | _ => (st, [])
      else
        if event == "property-change" then
          match (val.get "name").bind JVal.asStr with
          | some name =>
            if name == "percent-pos" then
              match (val.get "data").bind JVal.asF64 with
              | some p =>
                if st.maxPercentage < p then (⟨p, st.navState⟩, []) else (st, [])
              | none => (st, [])
            else (st, [])
          | none => (st, [])
        else (st, [])

/-- One arm of the `tokio::select!` loop (`src/player/mpv.rs` lines
97–171): a liveness-poll tick (with whether `child.try_wait()` reported
exit), a line read from the channel, end-of-stream, or a read error. -/
inductive LoopInput where
  | tick (exited : Bool)
  | line (l : Option JVal)
  | eof
  | readErr

/-- One iteration of the event loop: `none` means the loop breaks
(child exited, `Ok(None)` end-of-stream, or `Err` from the read);
otherwise the new state and written commands. -/
def loopStep {σ : Type} (nav : Option (NavFun σ)) (st : LoopState σ) :
    LoopInput → Option (LoopState σ × List Cmd)
  | LoopInput.tick exited => if exited then none else some (st, [])
  | LoopInput.line l => some (handleMsg nav st l)
  | LoopInput.eof => none
  | LoopInput.readErr => none

/-- The event loop run over a trace of select outcomes, accumulating
written commands, stopping at the first breaking input. -/
def runLoop {σ : Type} (nav : Option (NavFun σ)) (st : LoopState σ) :
    List LoopInput → LoopState σ × List Cmd
  | [] => (st, [])
  | i :: rest =>
    match loopStep nav st i with
    | none => (st, [])
    | some (st', cmds) =>
      let (st'', cmds') := runLoop nav st' rest
      (st'', cmds ++ cmds')

/-- The commands written right after the channel connects
(`src/player/mpv.rs` lines 76–95): four keybinds and the `percent-pos`
observation. -/
def preludeCmds : List Cmd :=
  [ Cmd.keybind "shift+n" "script-message next-episode",
    Cmd.keybind "N" "script-message next-episode",
    Cmd.keybind "shift+p" "script-message previous-episode",
    Cmd.keybind "P" "script-message previous-episode",
    Cmd.observeProperty 1 "percent-pos" ]

/-- `MpvPlayer::play` (`src/player/mpv.rs` lines 14–183).  `spawnOk` is the
outcome of `cmd.spawn()` — the only fallible step whose error escapes
(`.context("Failed to spawn MPV")?`).  `connects` is whether the 20-attempt
IPC retry loop obtained a stream.  With no stream, the function just waits
for the child and returns the initial `max_percentage = 0` with no channel
traffic; with a stream it writes the prelude commands and runs the event
loop over the given select-outcome trace, returning the final
`max_percentage` (paired here with the full command trace, the observable
channel behaviour). -/
def play {σ : Type} (spawnOk connects : Bool) (nav : Option (NavFun σ))
    (navInit : σ) (inputs : List LoopInput) : Except String (ℚ × List Cmd) :=
  if spawnOk then
    if connects then
      let (st, cmds) := runLoop nav ⟨0, navInit⟩ inputs
      Except.ok (st.maxPercentage, preludeCmds ++ cmds)
    else
      Except.ok (0, [])
  else
    Except.error "Failed to spawn MPV"

/-- The IPC line mpv sends for a bound key press: a `client-message` event
whose `args` carry the signal string. -/
def signalLine (act : EpisodeAction) : JVal :=
  JVal.obj [("event", JVal.str "client-message"),
            ("args", JVal.arr [JVal.str (signalName act)])]

/-- A `property-change` line with an arbitrary property name and payload. -/
def propLine (name : String) (data : JVal) : JVal :=
  JVal.obj [("event", JVal.str "property-change"),
            ("name", JVal.str name), ("data", data)]

/-- A `percent-pos` property-change line with a numeric payload. -/
def pcLine (p : ℚ) : JVal :=
  propLine "percent-pos" (JVal.num p)

/-- A `client-message` line with the given `args` array. -/
def msgLine (args : List JVal) : JVal :=
  JVal.obj [("event", JVal.str "client-message"), ("args", JVal.arr args)]

/-- A trace in which the player reports the given position percentages and
then exits, with no navigation. -/
def posTrace (ps : List ℚ) : List LoopInput :=
  ps.map (fun p => LoopInput.line (some (pcLine p))) ++ [LoopInput.tick true]

/-- Concrete navigator that always swaps to a fixed titled request
(used to instantiate theorems). -/
def cNavSwap : NavFun Unit :=
  fun s _ => (s, Except.ok (some ⟨"u2", some "T2", none, none, none⟩))

/-- Concrete navigator that always swaps to a request without a title. -/
def cNavSwapNoTitle : NavFun Unit :=
  fun s _ => (s, Except.ok (some ⟨"u2", none, none, none, none⟩))

/-- Concrete navigator that always reports "no such episode". -/
def cNavNone : NavFun Unit :=
  fun s _ => (s, Except.ok none)

/-- Concrete navigator that always fails. -/
def cNavErr : NavFun Unit :=
  fun s _ => (s, Except.error "boom")

/-- Concrete resolver that always reports "no such episode"
(used to instantiate navigator theorems). -/
def cResolveNone : String → Except String (Option PlayOptions) :=
  fun _ => Except.ok none

section Lemmas

/-- If every extraction fails, the priority loop finds nothing. -/
theorem tryPriorities_all_extract_fail (ps : List String) (sources : List SourceUrl)
    (extract : String → Except String PlayOptions) (sname ep : String)
    (h : ∀ u, ∃ e, extract u = Except.error e) :
    tryPriorities ps sources extract sname ep = none := by
  induction ps with
  | nil => rfl
  | cons p rest ih =>
    unfold tryPriorities
    cases hf : sources.find? (fun s => s.source_name == p) with
    | none => exact ih
    | some src =>
      obtain ⟨e, he⟩ := h src.source_url
      simp only [he]
      exact ih

/-- If no source carries a label from `ps`, the priority loop finds
nothing. -/
theorem tryPriorities_no_label (ps : List String) (sources : List SourceUrl)
    (extract : String → Except String PlayOptions) (sname ep : String)
    (h : ∀ s ∈ sources, s.source_name ∉ ps) :
    tryPriorities ps sources extract sname ep = none := by
  induction ps with
  | nil => rfl
  | cons p rest ih =>
    unfold tryPriorities
    have hf : sources.find? (fun s => s.source_name == p) = none := by
      rw [List.find?_eq_none]
      intro s hs
      simpa using fun hsp => h s hs (by simp [hsp])
    rw [hf]
    exact ih fun s hs hmem => h s hs (List.mem_cons_of_mem p hmem)

/-- `wrap32` is the identity on the `i32` range. -/
theorem wrap32_eq_self (n : ℤ) (h1 : -2 ^ 31 ≤ n) (h2 : n < 2 ^ 31) :
    wrap32 n = n := by
  unfold wrap32
  rw [Int.emod_eq_of_lt (by omega) (by omega)]
  omega

/-- Cursor bounds along any navigation run whose `Next` count keeps the
cursor inside the `i32` range: the cursor stays at least 1 and grows at
most by the number of `Next` actions. -/
theorem navRun_bounds (resolve : String → Except String (Option PlayOptions))
    (acts : List EpisodeAction) :
    ∀ n : ℤ, 1 ≤ n → n + countNext acts < 2 ^ 31 →
      1 ≤ navRun resolve n acts ∧ navRun resolve n acts ≤ n + countNext acts := by
  induction acts with
  | nil => intro n h1 _; simpa [navRun, countNext] using h1
  | cons a rest ih =>
    intro n h1 h2
    cases a with
    | Next =>
      have hc : 0 ≤ countNext rest := by
        clear ih h2
        induction rest with
        | nil => simp [countNext]
        | cons b bs ihb => cases b <;> simp [countNext] <;> omega
      have hw : wrap32 (n + 1) = n + 1 := by
        apply wrap32_eq_self <;> [omega; skip]
        have : countNext (EpisodeAction.Next :: rest) = countNext rest + 1 := rfl
        omega
      have := ih (n + 1) (by omega)
        (by have : countNext (EpisodeAction.Next :: rest) = countNext rest + 1 := rfl; omega)
      simpa [navRun, navStep, hw, countNext] using by omega
    | Previous =>
      have hcount : countNext (EpisodeAction.Previous :: rest) = countNext rest := rfl
      by_cases hn : 1 < n
      · have := ih (n - 1) (by omega) (by omega)
        simp only [navRun, navStep, if_pos hn]
        omega
      · have := ih n h1 (by omega)
        simp only [navRun, navStep, if_neg hn]
        omega

/-- An invalid line (failed JSON parse) is skipped. -/
theorem handleMsg_none {σ : Type} (nav : Option (NavFun σ)) (st : LoopState σ) :
    handleMsg nav st none = (st, []) := rfl

/-- A `percent-pos` notification sets `max_percentage` to the maximum of
the current and the reported value. -/
theorem handleMsg_pcLine {σ : Type} (nav : Option (NavFun σ)) (st : LoopState σ) (p : ℚ) :
    handleMsg nav st (some (pcLine p)) = (⟨max st.maxPercentage p, st.navState⟩, []) := by
  simp [handleMsg, pcLine, propLine, JVal.get, JVal.asStr, JVal.asF64]
  split
  · next h => simp [max_eq_right (le_of_lt h)]
  · next h => simp [max_eq_left (le_of_not_lt h)]

/-- A recognized signal whose navigator swap succeeds: fetching overlay,
load command, title command when present, and `max_percentage` reset. -/
theorem handleMsg_signal_swap {σ : Type} (f : NavFun σ) (st : LoopState σ)
    (act : EpisodeAction) (ns : σ) (o : PlayOptions)
    (h : f st.navState act = (ns, Except.ok (some o))) :
    handleMsg (some f) st (some (signalLine act)) =
      (⟨0, ns⟩,
        Cmd.showText ("Fetching " ++ actionLabel act ++ " Episode...") (some "5000") ::
        Cmd.loadfile o.url ::
        (match o.title with | some t => [Cmd.setTitle t] | none => [])) := by
  cases act <;>
    simp [handleMsg, signalLine, signalName, JVal.get, JVal.asStr, JVal.asArr, actionLabel, h]

/-- A recognized signal whose navigator reports no such episode: fetching
overlay then not-found overlay, `max_percentage` untouched. -/
theorem handleMsg_signal_notFound {σ : Type} (f : NavFun σ) (st : LoopState σ)
    (act : EpisodeAction) (ns : σ)
    (h : f st.navState act = (ns, Except.ok none)) :
    handleMsg (some f) st (some (signalLine act)) =
      (⟨st.maxPercentage, ns⟩,
        [Cmd.showText ("Fetching " ++ actionLabel act ++ " Episode...") (some "5000"),
         Cmd.showText ("No " ++ actionLabelLower act ++ " episode found") none]) := by
  cases act <;>
    simp [handleMsg, signalLine, signalName, JVal.get, JVal.asStr, JVal.asArr,
      actionLabel, actionLabelLower, h]

/-- A recognized signal whose navigator fails: fetching overlay then error
overlay carrying the error text, `max_percentage` untouched. -/
theorem handleMsg_signal_err {σ : Type} (f : NavFun σ) (st : LoopState σ)
    (act : EpisodeAction) (ns : σ) (e : String)
    (h : f st.navState act = (ns, Except.error e)) :
    handleMsg (some f) st (some (signalLine act)) =
      (⟨st.maxPercentage, ns⟩,
        [Cmd.showText ("Fetching " ++ actionLabel act ++ " Episode...") (some "5000"),
         Cmd.showText ("Error: " ++ e) none]) := by
  cases act <;>
    simp [handleMsg, signalLine, signalName, JVal.get, JVal.asStr, JVal.asArr, actionLabel, h]

/-- Across any single handled line, `max_percentage` either does not
decrease or is reset to 0 (the swap case). -/
theorem handleMsg_max_mono_or_reset {σ : Type} (nav : Option (NavFun σ))
    (st : LoopState σ) (l : Option JVal) :
    st.maxPercentage ≤ (handleMsg nav st l).1.maxPercentage ∨
      (handleMsg nav st l).1.maxPercentage = 0 := by
  rcases l with _ | val
  · simp [handleMsg]
  · simp only [handleMsg]
    repeat' split
    all_goals simp_all
    all_goals exact Or.inl (le_of_lt (by assumption))

/-- A line without a string `event` field is skipped. -/
theorem handleMsg_no_event {σ : Type} (nav : Option (NavFun σ)) (st : LoopState σ)
    (val : JVal) (h : (val.get "event").bind JVal.asStr = none) :
    handleMsg nav st (some val) = (st, []) := by
  simp only [handleMsg, h]

/-- A line with an unrecognized event kind is skipped. -/
theorem handleMsg_other_event {σ : Type} (nav : Option (NavFun σ)) (st : LoopState σ)
    (val : JVal) (ev : String) (h : (val.get "event").bind JVal.asStr = some ev)
    (h1 : ev ≠ "client-message") (h2 : ev ≠ "property-change") :
    handleMsg nav st (some val) = (st, []) := by
  simp only [handleMsg, h]
  simp [h1, h2]

/-- A property-change for a property other than `percent-pos` is skipped. -/
theorem handleMsg_prop_other {σ : Type} (nav : Option (NavFun σ)) (st : LoopState σ)
    (name : String) (d : JVal) (h : name ≠ "percent-pos") :
    handleMsg nav st (some (propLine name d)) = (st, []) := by
  simp [handleMsg, propLine, JVal.get, JVal.asStr, h]

/-- A `percent-pos` change with a non-numeric payload is skipped. -/
theorem handleMsg_prop_nonNumeric {σ : Type} (nav : Option (NavFun σ)) (st : LoopState σ)
    (d : JVal) (h : d.asF64 = none) :
    handleMsg nav st (some (propLine "percent-pos" d)) = (st, []) := by
  simp [handleMsg, propLine, JVal.get, JVal.asStr, h]

/-- A client-message whose first argument is not one of the two signal
strings is skipped. -/
theorem handleMsg_unknown_signal {σ : Type} (nav : Option (NavFun σ)) (st : LoopState σ)
    (s : String) (h1 : s ≠ "next-episode") (h2 : s ≠ "previous-episode") :
    handleMsg nav st (some (msgLine [JVal.str s])) = (st, []) := by
  simp only [handleMsg, msgLine, JVal.get, JVal.asStr, JVal.asArr]
  simp [h1, h2]

/-- A client-message with an empty `args` array is skipped. -/
theorem handleMsg_empty_args {σ : Type} (nav : Option (NavFun σ)) (st : LoopState σ) :
    handleMsg nav st (some (msgLine [])) = (st, []) := rfl

/-- The loop breaks exactly on child exit, end-of-stream, or read error. -/
theorem loopStep_halts_iff {σ : Type} (nav : Option (NavFun σ)) (st : LoopState σ)
    (i : LoopInput) :
    loopStep nav st i = none ↔
      (i = LoopInput.tick true ∨ i = LoopInput.eof ∨ i = LoopInput.readErr) := by
  cases i with
  | tick b => cases b <;> simp [loopStep]
  | line l => simp [loopStep]
  | eof => simp [loopStep]
  | readErr => simp [loopStep]

/-- Running the loop on a pure position trace folds `max` over the reports
and writes nothing. -/
theorem runLoop_posTrace {σ : Type} (nav : Option (NavFun σ)) (s : σ) (ps : List ℚ) :
    ∀ m : ℚ, runLoop nav ⟨m, s⟩ (posTrace ps) = (⟨ps.foldl max m, s⟩, []) := by
  induction ps with
  | nil =>
    intro m
    show runLoop nav ⟨m, s⟩ [LoopInput.tick true] = _
    simp [runLoop, loopStep]
  | cons p rest ih =>
    intro m
    show runLoop nav ⟨m, s⟩ (LoopInput.line (some (pcLine p)) :: posTrace rest) = _
    simp only [runLoop, loopStep, handleMsg_pcLine]
    rw [ih (max m p)]
    simp [List.foldl]

/-- The fold accumulator never decreases. -/
theorem le_foldl_max (ps : List ℚ) : ∀ a : ℚ, a ≤ ps.foldl max a := by
  induction ps with
  | nil => intro a; simp
  | cons p rest ih => intro a; exact le_trans (le_max_left a p) (ih (max a p))

/-- Every list element is below the `max` fold. -/
theorem mem_le_foldl_max (ps : List ℚ) : ∀ a : ℚ, ∀ q ∈ ps, q ≤ ps.foldl max a := by
  induction ps with
  | nil => simp
  | cons p rest ih =>
    intro a q hq
    rcases List.mem_cons.mp hq with h | h
    · subst h; exact le_trans (le_max_right a q) (le_foldl_max rest (max a q))
    · exact ih (max a p) q h

/-- The `max` fold is the start value or one of the elements. -/
theorem foldl_max_mem (ps : List ℚ) : ∀ a : ℚ, ps.foldl max a = a ∨ ps.foldl max a ∈ ps := by
  induction ps with
  | nil => intro a; left; rfl
  | cons p rest ih =>
    intro a
    rcases ih (max a p) with h | h
    · rcases max_choice a p with he | he
      · left; rw [List.foldl_cons, h, he]
      · right; rw [List.foldl_cons, h, he]; exact List.mem_cons_self p rest
    · right; exact List.mem_cons_of_mem p h

end Lemmas

/-- Claim C1, counterexample: when the resolver signals not-found (the API
returns a `null` episode), the navigator does not return `Ok(None)` — the
`bail!` in `get_episode_sources` propagates through `?` and the `Next`
request yields `Err("Episode 2 not found for show ID sid")`. -/
theorem c1_counterexample :
    (navigator (fun _ _ => ApiResult.ok none) (fun _ => Except.error "x")
      "sid" "Show" 1 EpisodeAction.Next).2
      = Except.error "Episode 2 not found for show ID sid" := by decide

/-- Claim C1 as amended: a transport-level resolver failure propagates as
`Err` with its message; a resolver not-found (null episode) is converted
into an error by `get_episode_sources` and equally propagates as `Err`;
`Ok(None)` is returned when the resolver delivers a candidate list but no
candidate extracts successfully. -/
theorem c1_resolution_outcomes (api : String → String → ApiResult)
    (extract : String → Except String PlayOptions) (sid sname ep : String) :
    (∀ msg, api sid ep = ApiResult.transportErr msg →
      resolve_stream_for_episode api extract sid sname ep = Except.error msg) ∧
    (api sid ep = ApiResult.ok none →
      resolve_stream_for_episode api extract sid sname ep =
        Except.error ("Episode " ++ ep ++ " not found for show ID " ++ sid)) ∧
    (∀ sources, api sid ep = ApiResult.ok (some sources) →
      (∀ u, ∃ e, extract u = Except.error e) →
      resolve_stream_for_episode api extract sid sname ep = Except.ok none) := by
  refine ⟨?_, ?_, ?_⟩
  · intro msg h; simp [resolve_stream_for_episode, get_episode_sources, h]
  · intro h; simp [resolve_stream_for_episode, get_episode_sources, h]
  · intro sources h hext
    simp [resolve_stream_for_episode, get_episode_sources, h,
      tryPriorities_all_extract_fail priorities sources extract sname ep hext]

/-- Claim C1, witness: concrete not-found and all-extractions-fail runs. -/
theorem c1_witness :
    resolve_stream_for_episode (fun _ _ => ApiResult.ok none) (fun _ => Except.error "x")
      "sid" "Show" "2" = Except.error "Episode 2 not found for show ID sid" ∧
    resolve_stream_for_episode (fun _ _ => ApiResult.ok (some [⟨"S-mp4", "u"⟩]))
      (fun _ => Except.error "x") "sid" "Show" "3" = Except.ok none :=
  ⟨(c1_resolution_outcomes _ _ "sid" "Show" "2").2.1 rfl,
   (c1_resolution_outcomes _ _ "sid" "Show" "3").2.2 _ rfl (fun _ => ⟨"x", rfl⟩)⟩

/-- Claim C2, counterexample: the cursor is an `i32`; under release-build
wrap-around semantics a `Next` issued at cursor 2147483647 (which is at
least 1) wraps the cursor to −2147483648, below 1. -/
theorem c2_counterexample :
    (navStep cResolveNone 2147483647 EpisodeAction.Next).1 = -2147483648 ∧
    (navStep cResolveNone 2147483647 EpisodeAction.Next).1 < 1 := by decide

/-- Claim C2 as amended: `Previous` at cursor 1 returns `Ok(None)` with the
cursor unchanged and independently of the resolver (no resolution is
attempted); `Previous` above 1 decrements by exactly 1; `Next` below the
`i32` maximum increments by exactly 1; and along any action sequence whose
`Next` count keeps the cursor inside the `i32` range the cursor never drops
below 1. -/
theorem c2_cursor_invariant :
    (∀ resolve : String → Except String (Option PlayOptions),
      navStep resolve 1 EpisodeAction.Previous = (1, Except.ok none)) ∧
    (∀ (resolve : String → Except String (Option PlayOptions)) (n : ℤ), 1 < n →
      (navStep resolve n EpisodeAction.Previous).1 = n - 1) ∧
    (∀ (resolve : String → Except String (Option PlayOptions)) (n : ℤ),
      -2 ^ 31 ≤ n → n + 1 < 2 ^ 31 → (navStep resolve n EpisodeAction.Next).1 = n + 1) ∧
    (∀ (resolve : String → Except String (Option PlayOptions)) (n : ℤ)
      (acts : List EpisodeAction), 1 ≤ n → n + countNext acts < 2 ^ 31 →
      1 ≤ navRun resolve n acts) := by
  refine ⟨?_, ?_, ?_, ?_⟩
  · intro resolve; simp [navStep]
  · intro resolve n h; simp [navStep, if_pos h]
  · intro resolve n h1 h2
    simp [navStep, wrap32_eq_self (n + 1) (by omega) h2]
  · intro resolve n acts h1 h2
    exact (navRun_bounds resolve acts n h1 h2).1

/-- Claim C2, witness: concrete steps and a concrete run. -/
theorem c2_witness :
    navStep cResolveNone 1 EpisodeAction.Previous = (1, Except.ok none) ∧
    (navStep cResolveNone 5 EpisodeAction.Previous).1 = 5 - 1 ∧
    (navStep cResolveNone 5 EpisodeAction.Next).1 = 5 + 1 ∧
    1 ≤ navRun cResolveNone 1
      [EpisodeAction.Next, EpisodeAction.Previous, EpisodeAction.Previous] :=
  ⟨c2_cursor_invariant.1 cResolveNone,
   c2_cursor_invariant.2.1 cResolveNone 5 (by norm_num),
   c2_cursor_invariant.2.2.1 cResolveNone 5 (by norm_num) (by norm_num),
   c2_cursor_invariant.2.2.2 cResolveNone 1 _ (by norm_num) (by decide)⟩

/-- Claim C3: a `percent-pos` notification updates `WatchedFraction` to the
maximum of the current and reported values; a successful swap resets it to
exactly 0; not-found and error navigation outcomes leave it unchanged; and
across any handled line it never decreases except by the swap reset. -/
theorem c3_watched_fraction_monotone :
    (∀ (σ : Type) (nav : Option (NavFun σ)) (st : LoopState σ) (p : ℚ),
      (handleMsg nav st (some (pcLine p))).1.maxPercentage = max st.maxPercentage p) ∧
    (∀ (σ : Type) (f : NavFun σ) (st : LoopState σ) (act : EpisodeAction) (ns : σ)
      (o : PlayOptions), f st.navState act = (ns, Except.ok (some o)) →
      (handleMsg (some f) st (some (signalLine act))).1.maxPercentage = 0) ∧
    (∀ (σ : Type) (f : NavFun σ) (st : LoopState σ) (act : EpisodeAction) (ns : σ),
      f st.navState act = (ns, Except.ok none) →
      (handleMsg (some f) st (some (signalLine act))).1.maxPercentage
        = st.maxPercentage) ∧
    (∀ (σ : Type) (f : NavFun σ) (st : LoopState σ) (act : EpisodeAction) (ns : σ)
      (e : String), f st.navState act = (ns, Except.error e) →
      (handleMsg (some f) st (some (signalLine act))).1.maxPercentage
        = st.maxPercentage) ∧
    (∀ (σ : Type) (nav : Option (NavFun σ)) (st : LoopState σ) (l : Option JVal),
      st.maxPercentage ≤ (handleMsg nav st l).1.maxPercentage ∨
        (handleMsg nav st l).1.maxPercentage = 0) := by
  refine ⟨?_, ?_, ?_, ?_, ?_⟩
  · intro σ nav st p; rw [handleMsg_pcLine]
  · intro σ f st act ns o h; rw [handleMsg_signal_swap f st act ns o h]
  · intro σ f st act ns h; rw [handleMsg_signal_notFound f st act ns h]
  · intro σ f st act ns e h; rw [handleMsg_signal_err f st act ns e h]
  · intro σ nav st l; exact handleMsg_max_mono_or_reset nav st l

/-- Claim C3, witness: concrete position update, swap reset, and unchanged
not-found/error outcomes. -/
theorem c3_witness :
    (handleMsg (none : Option (NavFun Unit)) ⟨50, ()⟩
      (some (pcLine 45))).1.maxPercentage = max 50 45 ∧
    (handleMsg (some cNavSwap) ⟨37, ()⟩
      (some (signalLine EpisodeAction.Next))).1.maxPercentage = 0 ∧
    (handleMsg (some cNavNone) ⟨37, ()⟩
      (some (signalLine EpisodeAction.Previous))).1.maxPercentage = 37 ∧
    (handleMsg (some cNavErr) ⟨37, ()⟩
      (some (signalLine EpisodeAction.Next))).1.maxPercentage = 37 :=
  ⟨c3_watched_fraction_monotone.1 Unit none ⟨50, ()⟩ 45,
   c3_watched_fraction_monotone.2.1 Unit cNavSwap ⟨37, ()⟩ EpisodeAction.Next () _ rfl,
   c3_watched_fraction_monotone.2.2.1 Unit cNavNone ⟨37, ()⟩ EpisodeAction.Previous () rfl,
   c3_watched_fraction_monotone.2.2.2.1 Unit cNavErr ⟨37, ()⟩ EpisodeAction.Next () "boom" rfl⟩

/-- Claim C4: with the channel up and the child exiting after a trace of
position reports with no swap, `play` returns `Ok` of the `max` fold of the
reports starting at 0 — an upper bound of every report, and either 0 (none
reported above it) or one of the reports; in particular reports 45 then 80
then exit yield `Ok(80)`. -/
theorem c4_play_reports_peak (ps : List ℚ) {σ : Type} (nav : Option (NavFun σ)) (s : σ) :
    play true true nav s (posTrace ps) = Except.ok (ps.foldl max 0, preludeCmds) ∧
    (∀ q ∈ ps, q ≤ ps.foldl max 0) ∧
    (ps.foldl max 0 = 0 ∨ ps.foldl max 0 ∈ ps) ∧
    play true true (none : Option (NavFun Unit)) () (posTrace [45, 80])
      = Except.ok (80, preludeCmds) := by
  refine ⟨?_, mem_le_foldl_max ps 0, foldl_max_mem ps 0, by decide⟩
  simp [play, runLoop_posTrace nav s ps 0]

/-- Claim C5, counterexample: a navigator success whose new request carries
no title produces only the fetching overlay and the load command — no
set-title command follows the load, contrary to the claim. -/
theorem c5_counterexample :
    handleMsg (some cNavSwapNoTitle) ⟨37, ()⟩ (some (signalLine EpisodeAction.Next))
      = (⟨0, ()⟩, [Cmd.showText "Fetching Next Episode..." (some "5000"),
                   Cmd.loadfile "u2"]) := by decide

/-- Claim C5 as amended: every recognized signal with a navigator supplied
resolves to exactly one of three outcomes, never silently dropped: on
success a load command, then a set-title command when the new request
carries a title, then the `WatchedFraction` reset to 0; on `Ok(None)` a
transient not-found overlay and no load; on error a transient error
overlay carrying the error text and no load. -/
theorem c5_signal_trichotomy :
    (∀ (σ : Type) (f : NavFun σ) (st : LoopState σ) (act : EpisodeAction) (ns : σ)
      (o : PlayOptions), f st.navState act = (ns, Except.ok (some o)) →
      handleMsg (some f) st (some (signalLine act)) =
        (⟨0, ns⟩,
          Cmd.showText ("Fetching " ++ actionLabel act ++ " Episode...") (some "5000") ::
          Cmd.loadfile o.url ::
          (match o.title with | some t => [Cmd.setTitle t] | none => []))) ∧
    (∀ (σ : Type) (f : NavFun σ) (st : LoopState σ) (act : EpisodeAction) (ns : σ),
      f st.navState act = (ns, Except.ok none) →
      handleMsg (some f) st (some (signalLine act)) =
        (⟨st.maxPercentage, ns⟩,
          [Cmd.showText ("Fetching " ++ actionLabel act ++ " Episode...") (some "5000"),
           Cmd.showText ("No " ++ actionLabelLower act ++ " episode found") none])) ∧
    (∀ (σ : Type) (f : NavFun σ) (st : LoopState σ) (act : EpisodeAction) (ns : σ)
      (e : String), f st.navState act = (ns, Except.error e) →
      handleMsg (some f) st (some (signalLine act)) =
        (⟨st.maxPercentage, ns⟩,
          [Cmd.showText ("Fetching " ++ actionLabel act ++ " Episode...") (some "5000"),
           Cmd.showText ("Error: " ++ e) none])) :=
  ⟨fun _ f st act ns o h => handleMsg_signal_swap f st act ns o h,
   fun _ f st act ns h => handleMsg_signal_notFound f st act ns h,
   fun _ f st act ns e h => handleMsg_signal_err f st act ns e h⟩

/-- Claim C5, witness: the three outcomes on concrete navigators. -/
theorem c5_witness :
    handleMsg (some cNavSwap) ⟨37, ()⟩ (some (signalLine EpisodeAction.Next))
      = (⟨0, ()⟩, [Cmd.showText "Fetching Next Episode..." (some "5000"),
                   Cmd.loadfile "u2", Cmd.setTitle "T2"]) ∧
    handleMsg (some cNavNone) ⟨37, ()⟩ (some (signalLine EpisodeAction.Previous))
      = (⟨37, ()⟩, [Cmd.showText "Fetching Previous Episode..." (some "5000"),
                    Cmd.showText "No previous episode found" none]) ∧
    handleMsg (some cNavErr) ⟨37, ()⟩ (some (signalLine EpisodeAction.Next))
      = (⟨37, ()⟩, [Cmd.showText "Fetching Next Episode..." (some "5000"),
                    Cmd.showText "Error: boom" none]) :=
  ⟨c5_signal_trichotomy.1 Unit cNavSwap ⟨37, ()⟩ EpisodeAction.Next () _ rfl,
   c5_signal_trichotomy.2.1 Unit cNavNone ⟨37, ()⟩ EpisodeAction.Previous () rfl,
   c5_signal_trichotomy.2.2 Unit cNavErr ⟨37, ()⟩ EpisodeAction.Next () "boom" rfl⟩

/-- Claim C6: `play` fails exactly when spawning fails — a failed spawn
yields the spawn error before any channel logic, and once spawned every
run returns `Ok` regardless of channel connection, navigator outcomes, or
the trace (read errors included). -/
theorem c6_error_iff_spawn_failure :
    (∀ (σ : Type) (connects : Bool) (nav : Option (NavFun σ)) (s : σ)
      (inputs : List LoopInput),
      play false connects nav s inputs = Except.error "Failed to spawn MPV") ∧
    (∀ (σ : Type) (connects : Bool) (nav : Option (NavFun σ)) (s : σ)
      (inputs : List LoopInput), ∃ r, play true connects nav s inputs = Except.ok r) := by
  constructor
  · intro σ connects nav s inputs; rfl
  · intro σ connects nav s inputs
    cases connects
    · exact ⟨(0, []), rfl⟩
    · exact ⟨((runLoop nav ⟨0, s⟩ inputs).1.maxPercentage,
        preludeCmds ++ (runLoop nav ⟨0, s⟩ inputs).2), rfl⟩

/-- Claim C7: when the retry loop never connects, `play` writes no channel
commands at all and returns `Ok` with watched fraction 0 after waiting for
the child, whatever the navigator and trace. -/
theorem c7_channel_unavailable_degrades :
    ∀ (σ : Type) (nav : Option (NavFun σ)) (s : σ) (inputs : List LoopInput),
      play true false nav s inputs = Except.ok (0, []) := by
  intro σ nav s inputs; rfl

/-- Claim C8: the first preferred label in priority order that has a
matching candidate wins — all earlier labels having no match, the selected
candidate is the one bearing that label, regardless of its position in the
resolver's list. -/
theorem c8_first_priority_label_wins (ps1 ps2 : List String) (p : String)
    (sources : List SourceUrl) (extract : String → Except String PlayOptions)
    (sname ep : String) (src : SourceUrl) (opts : PlayOptions)
    (h1 : ∀ q ∈ ps1, sources.find? (fun s => s.source_name == q) = none)
    (h2 : sources.find? (fun s => s.source_name == p) = some src)
    (h3 : extract src.source_url = Except.ok opts) :
    tryPriorities (ps1 ++ p :: ps2) sources extract sname ep
      = some { opts with title := some (episodeTitle sname ep) } := by
  induction ps1 with
  | nil => simp [tryPriorities, h2, h3]
  | cons q qs ih =>
    have hq := h1 q (List.mem_cons_self q qs)
    simp only [List.cons_append, tryPriorities, hq]
    exact ih fun r hr => h1 r (List.mem_cons_of_mem q hr)

/-- Claim C8, witness: with candidates labeled Yt-mp4 then S-mp4 and the
program's priority list, the S-mp4 candidate is selected although it is
not first in the input list. -/
theorem c8_witness :
    tryPriorities priorities [⟨"Yt-mp4", "yt"⟩, ⟨"S-mp4", "s"⟩]
      (fun u => Except.ok ⟨u, none, none, none, none⟩) "Show" "1"
      = some ⟨"s", some "Show - Episode 1", none, none, none⟩ :=
  c8_first_priority_label_wins [] ["Luf-mp4", "Luf-Mp4", "Sak", "Default", "Yt-mp4"]
    "S-mp4" [⟨"Yt-mp4", "yt"⟩, ⟨"S-mp4", "s"⟩]
    (fun u => Except.ok ⟨u, none, none, none, none⟩) "Show" "1"
    ⟨"S-mp4", "s"⟩ ⟨"s", none, none, none, none⟩ (by simp) (by decide) rfl

/-- Claim C9, counterexample: with candidates labeled Unknown-1 and
Unknown-2, both of which would extract successfully, resolution returns
`Ok(None)` — the remaining candidates are never tried as a fallback. -/
theorem c9_counterexample :
    resolve_stream_for_episode
      (fun _ _ => ApiResult.ok (some [⟨"Unknown-1", "u1"⟩, ⟨"Unknown-2", "u2"⟩]))
      (fun u => Except.ok ⟨u, none, none, none, none⟩) "sid" "Show" "1"
      = Except.ok none := by decide

/-- Claim C9 as amended: resolution iterates the preferred labels in
priority order, trying for each the first candidate bearing it; extraction
failure (or an absent label) silently continues with the next label;
the first success is returned tagged with the show-name/episode title; and
when no candidate carries any preferred label, resolution returns
`Ok(None)` without trying the remaining candidates. -/
theorem c9_priority_iteration :
    (∀ (p : String) (rest : List String) (sources : List SourceUrl)
      (extract : String → Except String PlayOptions) (sname ep : String)
      (src : SourceUrl) (e : String),
      sources.find? (fun s => s.source_name == p) = some src →
      extract src.source_url = Except.error e →
      tryPriorities (p :: rest) sources extract sname ep
        = tryPriorities rest sources extract sname ep) ∧
    (∀ (p : String) (rest : List String) (sources : List SourceUrl)
      (extract : String → Except String PlayOptions) (sname ep : String),
      sources.find? (fun s => s.source_name == p) = none →
      tryPriorities (p :: rest) sources extract sname ep
        = tryPriorities rest sources extract sname ep) ∧
    (∀ (p : String) (rest : List String) (sources : List SourceUrl)
      (extract : String → Except String PlayOptions) (sname ep : String)
      (src : SourceUrl) (opts : PlayOptions),
      sources.find? (fun s => s.source_name == p) = some src →
      extract src.source_url = Except.ok opts →
      tryPriorities (p :: rest) sources extract sname ep
        = some { opts with title := some (episodeTitle sname ep) }) ∧
    (∀ (api : String → String → ApiResult)
      (extract : String → Except String PlayOptions) (sid sname ep : String)
      (sources : List SourceUrl),
      api sid ep = ApiResult.ok (some sources) →
      (∀ s ∈ sources, s.source_name ∉ priorities) →
      resolve_stream_for_episode api extract sid sname ep = Except.ok none) := by
  refine ⟨?_, ?_, ?_, ?_⟩
  · intro p rest sources extract sname ep src e hf he
    simp only [tryPriorities, hf, he]
  · intro p rest sources extract sname ep hf
    simp only [tryPriorities, hf]
  · intro p rest sources extract sname ep src opts hf he
    simp only [tryPriorities, hf, he]
  · intro api extract sid sname ep sources h hmem
    simp [resolve_stream_for_episode, get_episode_sources, h,
      tryPriorities_no_label priorities sources extract sname ep hmem]

/-- Claim C9, witness: a concrete no-preferred-label resolution and a
concrete extraction-failure continuation. -/
theorem c9_witness :
    resolve_stream_for_episode
      (fun _ _ => ApiResult.ok (some [⟨"Unknown-1", "u1"⟩]))
      (fun u => Except.ok ⟨u, none, none, none, none⟩) "sid2" "Show" "4"
      = Except.ok none ∧
    tryPriorities ["S-mp4", "Sak"] [⟨"S-mp4", "bad"⟩] (fun _ => Except.error "e") "Show" "1"
      = tryPriorities ["Sak"] [⟨"S-mp4", "bad"⟩] (fun _ => Except.error "e") "Show" "1" :=
  ⟨c9_priority_iteration.2.2.2 _ _ "sid2" "Show" "4" _ rfl (by decide),
   c9_priority_iteration.1 "S-mp4" ["Sak"] [⟨"S-mp4", "bad"⟩]
     (fun _ => Except.error "e") "Show" "1" ⟨"S-mp4", "bad"⟩ "e" rfl rfl⟩

/-- Claim C10: the event loop handles every inbound line totally — invalid
JSON, a missing `event` field, an unrecognized event kind, an unrecognized
client-message argument, an empty argument array, a property other than
`percent-pos`, or a non-numeric payload all leave the state unchanged and
write nothing, keeping the loop running; and an iteration breaks the loop
exactly on observed child exit, end-of-stream, or a read error. -/
theorem c10_loop_total :
    (∀ (σ : Type) (nav : Option (NavFun σ)) (st : LoopState σ),
      handleMsg nav st none = (st, [])) ∧
    (∀ (σ : Type) (nav : Option (NavFun σ)) (st : LoopState σ) (val : JVal),
      (val.get "event").bind JVal.asStr = none →
      handleMsg nav st (some val) = (st, [])) ∧
    (∀ (σ : Type) (nav : Option (NavFun σ)) (st : LoopState σ) (val : JVal) (ev : String),
      (val.get "event").bind JVal.asStr = some ev →
      ev ≠ "client-message" → ev ≠ "property-change" →
      handleMsg nav st (some val) = (st, [])) ∧
    (∀ (σ : Type) (nav : Option (NavFun σ)) (st : LoopState σ) (s : String),
      s ≠ "next-episode" → s ≠ "previous-episode" →
      handleMsg nav st (some (msgLine [JVal.str s])) = (st, [])) ∧
    (∀ (σ : Type) (nav : Option (NavFun σ)) (st : LoopState σ),
      handleMsg nav st (some (msgLine [])) = (st, [])) ∧
    (∀ (σ : Type) (nav : Option (NavFun σ)) (st : LoopState σ) (name : String) (d : JVal),
      name ≠ "percent-pos" →
      handleMsg nav st (some (propLine name d)) = (st, [])) ∧
    (∀ (σ : Type) (nav : Option (NavFun σ)) (st : LoopState σ) (d : JVal),
      d.asF64 = none →
      handleMsg nav st (some (propLine "percent-pos" d)) = (st, [])) ∧
    (∀ (σ : Type) (nav : Option (NavFun σ)) (st : LoopState σ) (i : LoopInput),
      loopStep nav st i = none ↔
        (i = LoopInput.tick true ∨ i = LoopInput.eof ∨ i = LoopInput.readErr)) :=
  ⟨fun _ nav st => handleMsg_none nav st,
   fun _ nav st val h => handleMsg_no_event nav st val h,
   fun _ nav st val ev h h1 h2 => handleMsg_other_event nav st val ev h h1 h2,
   fun _ nav st s h1 h2 => handleMsg_unknown_signal nav st s h1 h2,
   fun _ nav st => handleMsg_empty_args nav st,
   fun _ nav st name d h => handleMsg_prop_other nav st name d h,
   fun _ nav st d h => handleMsg_prop_nonNumeric nav st d h,
   fun _ nav st i => loopStep_halts_iff nav st i⟩

/-- Claim C10, witness: concrete malformed lines leaving a concrete state
unchanged, and a concrete breaking input. -/
theorem c10_witness :
    handleMsg (none : Option (NavFun Unit)) ⟨37, ()⟩
      (some (msgLine [JVal.str "stop"])) = (⟨37, ()⟩, []) ∧
    handleMsg (none : Option (NavFun Unit)) ⟨37, ()⟩
      (some (propLine "pause" (JVal.num 1))) = (⟨37, ()⟩, []) ∧
    handleMsg (none : Option (NavFun Unit)) ⟨37, ()⟩
      (some (propLine "percent-pos" (JVal.str "NaN"))) = (⟨37, ()⟩, []) ∧
    handleMsg (none : Option (NavFun Unit)) ⟨37, ()⟩
      (some (JVal.obj [("no-event", JVal.null)])) = (⟨37, ()⟩, []) ∧
    loopStep (none : Option (NavFun Unit)) ⟨37, ()⟩ LoopInput.eof = none :=
  ⟨c10_loop_total.2.2.2.1 Unit none ⟨37, ()⟩ "stop" (by decide) (by decide),
   c10_loop_total.2.2.2.2.2.1 Unit none ⟨37, ()⟩ "pause" (JVal.num 1) (by decide),
   c10_loop_total.2.2.2.2.2.2.1 Unit none ⟨37, ()⟩ (JVal.str "NaN") rfl,
   c10_loop_total.2.1 Unit none ⟨37, ()⟩ (JVal.obj [("no-event", JVal.null)]) rfl,
   (c10_loop_total.2.2.2.2.2.2.2 Unit none ⟨37, ()⟩ LoopInput.eof).mpr
     (Or.inr (Or.inl rfl))⟩
